import Mathlib

/-!
Shallow embedding of `src/gemini_debate_story_generator.py` (class
`StoryDebateGenerator`) and proofs about its orchestration logic.

Modelling conventions:
* The language-model service (`_call_model`, source lines 44-90) is an
  external collaborator; each call site is modelled by an oracle function
  from the constructed prompt string to the call result.  `_call_model`
  returns either `None` (empty response / API error) or the stripped
  message content, so a call result is `Option String`.
* Python's `json.loads` is external library code; it is modelled by an
  oracle `loads : String -> Option Json` (`none` models a raised
  `json.JSONDecodeError`, which every call site catches).
* Python string operations are modelled character-wise on `String.data`
  (Python slices and `startswith`/`endswith` operate on code points).
* File writes and `print` calls are side effects with no influence on the
  values the claims are about; they are omitted.
* A raised `KeyError`/`TypeError` from subscripting a parsed JSON value is
  modelled with `Except PyErr`.
-/

set_option maxRecDepth 8192

namespace StoryDebate

/-- Values produced by parsing JSON, as Python `json.loads` returns them
(dict / list / str / int / bool / None). -/
inductive Json where
  | jnull : Json
  | jbool : Bool → Json
  | jnum : Int → Json
  | jstr : String → Json
  | jarr : List Json → Json
  | jobj : List (String × Json) → Json

/-- Python exceptions that the modelled code can raise and does not catch. -/
inductive PyErr where
  | keyError (key : String) : PyErr
  | typeError : PyErr
deriving DecidableEq

/-- Python truthiness of a `_call_model` result (`None` and the empty
string are falsy; `if not response: ...`). -/
def isFalsyStr : Option String → Bool
  | none => true
  | some s => s.isEmpty

/-- Python truthiness of a parsed JSON value (`if not judge_decision: ...`). -/
def jsonFalsy : Json → Bool
  | .jnull => true
  | .jbool b => !b
  | .jnum n => n == 0
  | .jstr s => s.isEmpty
  | .jarr a => a.isEmpty
  | .jobj o => o.isEmpty

/-- Python subscript `value[key]` on a parsed JSON value: a `KeyError` on a
missing dict key, a `TypeError` when the value is not a dict. -/
def jsonGet : Json → String → Except PyErr Json
  | .jobj o, k =>
    match o.lookup k with
    | some v => .ok v
    | none => .error (.keyError k)
  | _, _ => .error .typeError

/-- Dictionary lookup that merely reports absence (used to state
properties; `jsonGet` is the raising access the source performs). -/
def dictGetOpt : Json → String → Option Json
  | .jobj o, k => o.lookup k
  | _, _ => none

/-- The single-quote character, used by Python `repr`. -/
def sq : String := (Char.ofNat 39).toString

mutual

/-- Python `repr` of a parsed JSON value (containers stringify via `repr`
of their elements; escaping inside string literals is not modelled, it
never matters to the claims). -/
def pyRepr : Json → String
  | .jnull => "None"
  | .jbool true => "True"
  | .jbool false => "False"
  | .jnum n => toString n
  | .jstr s => sq ++ s ++ sq
  | .jarr a => "[" ++ String.intercalate ", " (pyReprList a) ++ "]"
  | .jobj o => "\x7b" ++ String.intercalate ", " (pyReprPairs o) ++ "\x7d"

/-- `pyRepr` mapped over a list of values. -/
def pyReprList : List Json → List String
  | [] => []
  | x :: xs => pyRepr x :: pyReprList xs

/-- `pyRepr` mapped over dict entries. -/
def pyReprPairs : List (String × Json) → List String
  | [] => []
  | (k, v) :: xs => (sq ++ k ++ sq ++ ": " ++ pyRepr v) :: pyReprPairs xs

end

/-- Python `str()` of a parsed JSON value as used by f-string
interpolation (`str` of a `str` is itself, everything else via `repr`). -/
def pyStr : Json → String
  | .jstr s => s
  | j => pyRepr j

/-- Python `str.startswith`, character-wise. -/
def startsWithPy (s p : String) : Bool := p.data.isPrefixOf s.data

/-- Python `str.endswith`, character-wise. -/
def endsWithPy (s p : String) : Bool := p.data.isSuffixOf s.data

/-- Python slice `s[n:]`, character-wise. -/
def dropChars (s : String) (n : Nat) : String := ⟨s.data.drop n⟩

/-- Python slice `s[:-n]` (for `n ≤ len s`), character-wise. -/
def dropRightChars (s : String) (n : Nat) : String := ⟨s.data.take (s.data.length - n)⟩

/-- Python `str.isspace` for a single character (the whitespace set
`str.strip()` removes, restricted to its ASCII part). -/
def pyIsSpace (c : Char) : Bool :=
  c == ' ' || c == '\t' || c == '\n' || c == '\r' || c == '\x0b' || c == '\x0c'

/-- Python `str.strip()`: drop whitespace from both ends. -/
def pyStrip (s : String) : String :=
  ⟨((s.data.dropWhile pyIsSpace).reverse.dropWhile pyIsSpace).reverse⟩

/-- First step of `_clean_json_response` (source lines 94-97): strip an
optional leading ```` ```json ```` or ```` ``` ```` fence. -/
def stripLeadingFence (t : String) : String :=
  if startsWithPy t "```json" then dropChars t 7
  else if startsWithPy t "```" then dropChars t 3
  else t

/-- Second step of `_clean_json_response` (source lines 99-100): strip an
optional trailing ```` ``` ```` fence. -/
def stripTrailingFence (t : String) : String :=
  if endsWithPy t "```" then dropRightChars t 3 else t

/-- Embeds `_clean_json_response` (source lines 92-102): strip the
optional fences, then `strip()` (line 102). -/
def cleanJsonResponse (t : String) : String :=
  pyStrip (stripTrailingFence (stripLeadingFence t))

/-- One outline entry as consumed by the debate functions
(`section_info['section'] / ['title'] / ['summary']`).  The dict key
`section` is a Lean keyword, hence the field name `sectionNum`. -/
structure SectionInfo where
  sectionNum : Int
  title : String
  summary : String

/-- One entry of `self.debate_log` (source lines 285-291). -/
structure DebateRecord where
  sectionNum : Int
  title : String
  affirmative_draft : String
  negative_draft : String
  judge_decision : Json

/-- The three language-model calls made for one section, as oracles from
the constructed prompt to the call result (`_call_model` return value). -/
structure SectionOracle where
  aff : String → Option String
  neg : String → Option String
  judge : String → Option String

/-- An oracle whose responses do not depend on the prompt.  Each oracle
function is invoked at most once per section, so this realises every
possible combination of per-call outcomes. -/
def constOracle (a n j : Option String) : SectionOracle :=
  ⟨fun _ => a, fun _ => n, fun _ => j⟩

/-- Embeds the context construction shared by `affirmative_writer`
(source lines 179-184) and `negative_critic` (lines 211-216). -/
def buildContext (previousSections : List Json) : String :=
  if previousSections.isEmpty then ""
  else "\n\nPrevious sections of the story:\n" ++
    String.join ((previousSections.enumFrom 1).map
      (fun p => "\n--- Section " ++ toString p.1 ++ " ---\n" ++ pyStr p.2 ++ "\n"))

/-- Embeds the f-string `affirmative_prompt` (source lines 186-203). -/
def affirmativePrompt (sec : SectionInfo) (previousSections : List Json)
    (storyPromptContent : String) : String :=
  "You are a skilled Japanese storywriter acting as the AFFIRMATIVE WRITER. Your role is to write the initial draft of a story section.\n\nOriginal Story Prompt:\n"
  ++ storyPromptContent
  ++ "\n\nSection to write:\nTitle: " ++ sec.title
  ++ "\nSummary: " ++ sec.summary ++ "\n"
  ++ buildContext previousSections
  ++ "\n\nWrite Section " ++ toString sec.sectionNum
  ++ " as a complete chapter in Japanese. Focus on:\n- Engaging narrative flow\n- Rich character development\n- Beautiful prose and literary style\n- Consistency with previous sections\n- Advancing the story according to the outline\n\nWrite in an immersive, literary Japanese style that draws readers in."

/-- Embeds the f-string `negative_prompt` (source lines 218-238). -/
def negativePrompt (sec : SectionInfo) (affirmativeDraft : String)
    (previousSections : List Json) (storyPromptContent : String) : String :=
  "You are a skilled Japanese storywriter acting as the NEGATIVE CRITIC. You have read the affirmative writer"
  ++ sq ++ "s draft and believe it can be significantly improved.\n\nOriginal Story Prompt:\n"
  ++ storyPromptContent
  ++ "\n\nSection Requirements:\nTitle: " ++ sec.title
  ++ "\nSummary: " ++ sec.summary ++ "\n"
  ++ buildContext previousSections
  ++ "\n\nAFFIRMATIVE WRITER" ++ sq ++ "S DRAFT:\n" ++ affirmativeDraft
  ++ "\n\nAs the negative critic, you believe this draft has issues that need addressing. Provide your critique and write an improved alternative version that addresses these problems. Focus on:\n- Better narrative pacing and tension\n- Deeper character emotions and motivations\n- More vivid and evocative descriptions\n- Stronger dialogue and character interactions\n- Better integration with the overall story arc\n\nWrite your improved version of Section "
  ++ toString sec.sectionNum ++ " in Japanese."

/-- Embeds the f-string `judge_prompt` (source lines 246-272).  The
`previous_sections` parameter of `judge_editor` is not interpolated into
the prompt, so it does not appear here. -/
def judgePrompt (sec : SectionInfo) (affirmativeDraft negativeDraft : String) : String :=
  "You are acting as both a LITERARY EDITOR and JUDGE. Two writers have provided different versions of Section "
  ++ toString sec.sectionNum ++ " titled \"" ++ sec.title
  ++ "\". Your role is to evaluate both versions and select the superior one, or create a refined version based on the best elements of both.\n\nSection Requirements:\nTitle: "
  ++ sec.title ++ "\nSummary: " ++ sec.summary
  ++ "\n\nAFFIRMATIVE VERSION:\n" ++ affirmativeDraft
  ++ "\n\nNEGATIVE VERSION:\n" ++ negativeDraft
  ++ "\n\nEvaluate both versions based on:\n1. Narrative flow and pacing\n2. Character development and emotional depth\n3. Prose quality and literary style\n4. Consistency with story requirements\n5. Reader engagement and immersion\n\nSelect the superior version OR create a refined version that combines the best elements. Return your decision in this JSON format:\n\x7b\n    \"preferred_version\": \"affirmative\" or \"negative\" or \"refined\",\n    \"reasoning\": \"Detailed explanation of your choice and what makes it superior\",\n    \"final_section\": \"The complete final version of the section in Japanese\"\n\x7d\n\nRespond ONLY with valid JSON."

/-- Embeds `judge_editor` (source lines 243-302).  Returns the parsed
judge decision (or `none` on call failure / parse failure) together with
the updated `self.debate_log`: the `debate_record` is appended exactly
when the parse succeeded (lines 284-292). -/
def judgeEditor (loads : String → Option Json) (o : SectionOracle)
    (sec : SectionInfo) (affirmativeDraft negativeDraft : String)
    (log : List DebateRecord) : Option Json × List DebateRecord :=
  let resp := o.judge (judgePrompt sec affirmativeDraft negativeDraft)
  if isFalsyStr resp then (none, log)
  else
    match loads (cleanJsonResponse (resp.getD "")) with
    | none => (none, log)
    | some jd =>
      (some jd,
       log ++ [{ sectionNum := sec.sectionNum, title := sec.title,
                 affirmative_draft := affirmativeDraft,
                 negative_draft := negativeDraft,
                 judge_decision := jd }])

/-- Embeds `generate_section_with_debate` (source lines 304-332).
Returns the section result — `Except.error` models the uncaught
`KeyError` from `judge_decision['preferred_version']` (line 329),
`['reasoning']` (line 330) or `['final_section']` (line 332); `.ok none`
models `return None` — together with the updated `self.debate_log`. -/
def generateSectionWithDebate (loads : String → Option Json) (o : SectionOracle)
    (sec : SectionInfo) (previousSections : List Json) (storyPromptContent : String)
    (log : List DebateRecord) : Except PyErr (Option Json) × List DebateRecord :=
  let affResp := o.aff (affirmativePrompt sec previousSections storyPromptContent)
  if isFalsyStr affResp then (.ok none, log)
  else
    let affirmativeDraft := affResp.getD ""
    let negResp := o.neg (negativePrompt sec affirmativeDraft previousSections storyPromptContent)
    if isFalsyStr negResp then (.ok (some (.jstr affirmativeDraft)), log)
    else
      let negativeDraft := negResp.getD ""
      match judgeEditor loads o sec affirmativeDraft negativeDraft log with
      | (none, log1) => (.ok (some (.jstr affirmativeDraft)), log1)
      | (some jd, log1) =>
        if jsonFalsy jd then (.ok (some (.jstr affirmativeDraft)), log1)
        else
          match jsonGet jd "preferred_version" with
          | .error e => (.error e, log1)
          | .ok _ =>
            match jsonGet jd "reasoning" with
            | .error e => (.error e, log1)
            | .ok _ =>
              match jsonGet jd "final_section" with
              | .error e => (.error e, log1)
              | .ok v => (.ok (some v), log1)

/-- Embeds `generate_story_outline` (source lines 104-174): on a falsy
model response return `None`; otherwise clean the response and parse it,
returning the parsed data unchanged (`none` models the caught
`json.JSONDecodeError`).  The outline file write (lines 162-163) is a
side effect with no influence on the returned value. -/
def generateStoryOutline (loads : String → Option Json)
    (response : Option String) : Option Json :=
  if isFalsyStr response then none
  else loads (cleanJsonResponse (response.getD ""))

/-- Number of entries of the `outline` array of a parsed outline. -/
def outlineSectionCount (j : Json) : Option Nat :=
  match j with
  | .jobj o =>
    match o.lookup "outline" with
    | some (.jarr a) => some a.length
    | _ => none
  | _ => none

/-- The `section` field of each entry of the `outline` array. -/
def outlineSectionIndices (j : Json) : Option (List (Option Json)) :=
  match j with
  | .jobj o =>
    match o.lookup "outline" with
    | some (.jarr a) => some (a.map (fun e => dictGetOpt e "section"))
    | _ => none
  | _ => none

/-- Mutable state of one `generate_complete_debate_story` run (source
lines 390-391 and `self.debate_log`).  `suppliedContexts` is
instrumentation, not present in the source: it records, purely
additively, the value of `previous_sections` passed to
`generate_section_with_debate` at each loop iteration (line 394-396), so
that claims about the context supplied to each section's calls can be
stated. -/
structure RunState where
  completeStory : List String
  previousSections : List Json
  debateLog : List DebateRecord
  suppliedContexts : List (List Json)

/-- Rendering of one completed section in `complete_story`
(source line 399). -/
def renderSection (sec : SectionInfo) (finalSection : Json) : String :=
  "## " ++ sec.title ++ "\n\n" ++ pyStr finalSection

/-- Embeds the per-section loop of `generate_complete_debate_story`
(source lines 393-404): run the debate for each outline entry; on a
truthy `final_section` extend `complete_story` and `previous_sections`,
otherwise `break`.  An uncaught exception (`some e`) aborts the loop,
propagating out of the generator. -/
def runSections (loads : String → Option Json) (storyPromptContent : String) :
    List (SectionInfo × SectionOracle) → RunState → RunState × Option PyErr
  | [], st => (st, none)
  | (sec, o) :: rest, st =>
    let st1 : RunState :=
      { st with suppliedContexts := st.suppliedContexts ++ [st.previousSections] }
    match generateSectionWithDebate loads o sec st.previousSections storyPromptContent st.debateLog with
    | (.error e, log1) => ({ st1 with debateLog := log1 }, some e)
    | (.ok none, log1) => ({ st1 with debateLog := log1 }, none)
    | (.ok (some j), log1) =>
      if jsonFalsy j then ({ st1 with debateLog := log1 }, none)
      else
        runSections loads storyPromptContent rest
          { completeStory := st1.completeStory ++ [renderSection sec j],
            previousSections := st1.previousSections ++ [j],
            debateLog := log1,
            suppliedContexts := st1.suppliedContexts }

/-- Embeds `generate_complete_debate_story` (source lines 363-432) from
the point where the outline is available: `title` embeds
`outline_data.get('title', 'Generated Debate Story')` (line 408) and
`items` pairs each entry of `outline_data['outline']` with the oracle for
its three model calls.  The result is the assembled `full_story`
(lines 407-412), `.ok none` when `complete_story` is empty (line 430),
or `.error` for an uncaught exception; the final run state is returned
alongside.  File writes are side effects and omitted. -/
def generateCompleteDebateStory (loads : String → Option Json)
    (storyPromptContent title : String)
    (items : List (SectionInfo × SectionOracle)) :
    Except PyErr (Option String) × RunState :=
  let (st, err) := runSections loads storyPromptContent items ⟨[], [], [], []⟩
  match err with
  | some e => (.error e, st)
  | none =>
    if st.completeStory.isEmpty then (.ok none, st)
    else
      (.ok (some ("# " ++ title ++ "\n\n" ++ String.intercalate "\n\n" st.completeStory)), st)

/-! ### Token usage tracking (source lines 19-30 and 63-81) -/

/-- The four `agent_type` strings used at the call sites of `_call_model`
(source lines 154, 206, 241, 277); these are exactly the keys of
`token_usage['by_agent']`, so the membership test on line 76 always
succeeds for calls the program makes. -/
inductive AgentType where
  | outline_generator | affirmative_writer | negative_critic | judge_editor
deriving DecidableEq

/-- One per-agent bucket of `token_usage['by_agent']` (source lines
25-28).  Note it stores no total-token field. -/
structure AgentUsage where
  prompt_tokens : Nat
  completion_tokens : Nat
  calls : Nat
deriving DecidableEq

/-- The usage metadata of one response (`response.usage`, source lines
64-67).  The three fields are reported independently by the service. -/
structure UsageData where
  prompt_tokens : Nat
  completion_tokens : Nat
  total_tokens : Nat
deriving DecidableEq

/-- The `self.token_usage` dictionary (source lines 19-30). -/
structure TokenUsage where
  total_prompt_tokens : Nat
  total_completion_tokens : Nat
  total_tokens : Nat
  api_calls : Nat
  outline_generator : AgentUsage
  affirmative_writer : AgentUsage
  negative_critic : AgentUsage
  judge_editor : AgentUsage
deriving DecidableEq

/-- Initial value of `self.token_usage` (source lines 19-30). -/
def initTokenUsage : TokenUsage :=
  { total_prompt_tokens := 0, total_completion_tokens := 0, total_tokens := 0,
    api_calls := 0,
    outline_generator := ⟨0, 0, 0⟩, affirmative_writer := ⟨0, 0, 0⟩,
    negative_critic := ⟨0, 0, 0⟩, judge_editor := ⟨0, 0, 0⟩ }

/-- The per-agent increment of source lines 77-79. -/
def bumpAgent (a : AgentUsage) (d : UsageData) : AgentUsage :=
  { prompt_tokens := a.prompt_tokens + d.prompt_tokens,
    completion_tokens := a.completion_tokens + d.completion_tokens,
    calls := a.calls + 1 }

/-- Embeds the token-tracking block of `_call_model` (source lines
63-81): when the response reports no usage metadata nothing is recorded;
otherwise the global totals, the call count, and the named agent's bucket
are incremented. -/
def recordUsage (st : TokenUsage) (agent : AgentType) (usage : Option UsageData) : TokenUsage :=
  match usage with
  | none => st
  | some d =>
    let st1 : TokenUsage :=
      { st with total_prompt_tokens := st.total_prompt_tokens + d.prompt_tokens,
                total_completion_tokens := st.total_completion_tokens + d.completion_tokens,
                total_tokens := st.total_tokens + d.total_tokens,
                api_calls := st.api_calls + 1 }
    match agent with
    | .outline_generator => { st1 with outline_generator := bumpAgent st1.outline_generator d }
    | .affirmative_writer => { st1 with affirmative_writer := bumpAgent st1.affirmative_writer d }
    | .negative_critic => { st1 with negative_critic := bumpAgent st1.negative_critic d }
    | .judge_editor => { st1 with judge_editor := bumpAgent st1.judge_editor d }

/-- The usage state after a sequence of recorded calls, starting from the
constructor's initial dictionary. -/
def runUsage (events : List (AgentType × Option UsageData)) : TokenUsage :=
  events.foldl (fun st e => recordUsage st e.1 e.2) initTokenUsage

/-- A per-agent total token count, as the source derives it where needed
(`total_agent_tokens`, line 347): prompt plus completion, since the
per-agent buckets store no total field. -/
def agentTotal (a : AgentUsage) : Nat := a.prompt_tokens + a.completion_tokens

/-- Sum of the derived per-agent total token counts over the four roles. -/
def byAgentTotalSum (st : TokenUsage) : Nat :=
  agentTotal st.outline_generator + agentTotal st.affirmative_writer +
  agentTotal st.negative_critic + agentTotal st.judge_editor

/-- Sum of the per-agent prompt token counts over the four roles. -/
def byAgentPromptSum (st : TokenUsage) : Nat :=
  st.outline_generator.prompt_tokens + st.affirmative_writer.prompt_tokens +
  st.negative_critic.prompt_tokens + st.judge_editor.prompt_tokens

/-- Sum of the per-agent completion token counts over the four roles. -/
def byAgentCompletionSum (st : TokenUsage) : Nat :=
  st.outline_generator.completion_tokens + st.affirmative_writer.completion_tokens +
  st.negative_critic.completion_tokens + st.judge_editor.completion_tokens

/-! ### Outcome classification helpers used in theorem statements -/

/-- The judge decision `judge_editor` ends up with for a given call
result: `none` on a falsy response and on a parse failure, otherwise the
parsed value. -/
def judgeParse (loads : String → Option Json) (resp : Option String) : Option Json :=
  if isFalsyStr resp then none else loads (cleanJsonResponse (resp.getD ""))

/-- A parsed judge decision that drives the happy path of
`generate_section_with_debate`: truthy, carrying the three accessed keys,
with a truthy `final_section`. -/
def goodJudgeDecision (jd : Json) : Bool :=
  !(jsonFalsy jd) &&
  (dictGetOpt jd "preferred_version").isSome &&
  (dictGetOpt jd "reasoning").isSome &&
  (match dictGetOpt jd "final_section" with
   | some v => !(jsonFalsy v)
   | none => false)

/-- An oracle whose three calls all succeed, whatever prompt they are
given: the affirmative and negative responses are usable text and the
judge response parses to a good decision. -/
def alwaysGoodOracle (loads : String → Option Json) (o : SectionOracle) : Prop :=
  (∀ p, isFalsyStr (o.aff p) = false) ∧
  (∀ p, isFalsyStr (o.neg p) = false) ∧
  (∀ p, ∃ jd, judgeParse loads (o.judge p) = some jd ∧ goodJudgeDecision jd = true)

/-! ### Concrete values used by witnesses and counterexamples -/

/-- A concrete outline entry. -/
def demoSec1 : SectionInfo := ⟨1, "S1", "sum1"⟩

/-- A second concrete outline entry. -/
def demoSec2 : SectionInfo := ⟨2, "S2", "sum2"⟩

/-- A third concrete outline entry. -/
def demoSec3 : SectionInfo := ⟨3, "S3", "sum3"⟩

/-- A well-formed judge response text (no code fence). -/
def judgeGoodStr : String :=
  "\x7b\"preferred_version\": \"refined\", \"reasoning\": \"ok\", \"final_section\": \"FINAL\"\x7d"

/-- The parse of `judgeGoodStr`. -/
def judgeGoodJson : Json :=
  .jobj [("preferred_version", .jstr "refined"), ("reasoning", .jstr "ok"),
         ("final_section", .jstr "FINAL")]

/-- A second well-formed judge response text. -/
def judgeGood2Str : String :=
  "\x7b\"preferred_version\": \"negative\", \"reasoning\": \"ok2\", \"final_section\": \"FINAL2\"\x7d"

/-- The parse of `judgeGood2Str`. -/
def judgeGood2Json : Json :=
  .jobj [("preferred_version", .jstr "negative"), ("reasoning", .jstr "ok2"),
         ("final_section", .jstr "FINAL2")]

/-- A judge response that is valid JSON but lacks the `final_section`
key. -/
def judgeNoFinalStr : String :=
  "\x7b\"preferred_version\": \"refined\", \"reasoning\": \"ok\"\x7d"

/-- The parse of `judgeNoFinalStr`. -/
def judgeNoFinalJson : Json :=
  .jobj [("preferred_version", .jstr "refined"), ("reasoning", .jstr "ok")]

/-- An outline response body: valid JSON whose `outline` array has two
entries, numbered 5 and 9. -/
def outlineTwoStr : String :=
  "\x7b\"title\": \"T\", \"outline\": [\x7b\"section\": 5, \"title\": \"A\", \"summary\": \"a\"\x7d, \x7b\"section\": 9, \"title\": \"B\", \"summary\": \"b\"\x7d]\x7d"

/-- The parse of `outlineTwoStr`. -/
def outlineTwoJson : Json :=
  .jobj [("title", .jstr "T"),
         ("outline", .jarr
           [.jobj [("section", .jnum 5), ("title", .jstr "A"), ("summary", .jstr "a")],
            .jobj [("section", .jnum 9), ("title", .jstr "B"), ("summary", .jstr "b")]])]

/-- A concrete `json.loads` oracle, defined on the handful of strings the
concrete runs parse and failing elsewhere (a parse failure models the
raised `json.JSONDecodeError`). -/
def demoLoads : String → Option Json := fun s =>
  if s = judgeGoodStr then some judgeGoodJson
  else if s = judgeGood2Str then some judgeGood2Json
  else if s = judgeNoFinalStr then some judgeNoFinalJson
  else if s = outlineTwoStr then some outlineTwoJson
  else none

/-- An oracle for a section whose three calls all succeed. -/
def goodOracle : SectionOracle :=
  constOracle (some "AFF") (some "NEG") (some judgeGoodStr)

/-- A second all-success oracle with a distinct final section. -/
def goodOracle2 : SectionOracle :=
  constOracle (some "AFF2") (some "NEG2") (some judgeGood2Str)

/-- An oracle whose negative-critic call fails (`None` response). -/
def oracleNegFails : SectionOracle :=
  constOracle (some "AFF") none none

/-- An oracle whose judge call returns unparsable text. -/
def oracleJudgeUnparsable : SectionOracle :=
  constOracle (some "AFF") (some "NEG") (some "not json")

/-- An oracle whose affirmative call fails (`None` response). -/
def oracleAffFails : SectionOracle :=
  constOracle none none none

/-- An oracle whose judge call returns valid JSON lacking
`final_section`. -/
def oracleJudgeNoFinal : SectionOracle :=
  constOracle (some "AFF") (some "NEG") (some judgeNoFinalStr)

/-! ### Helper lemmas -/

/-- A list is a Boolean prefix of itself followed by anything. -/
lemma isPrefixOf_self_append (l t : List Char) : l.isPrefixOf (l ++ t) = true := by
  induction l with
  | nil => simp [List.isPrefixOf]
  | cons a as ih => simp [List.isPrefixOf, ih]

/-- A list is a Boolean suffix of anything followed by itself. -/
lemma isSuffixOf_append_self (l t : List Char) : t.isSuffixOf (l ++ t) = true := by
  show (t.reverse.isPrefixOf (l ++ t).reverse) = true
  rw [List.reverse_append]
  exact isPrefixOf_self_append t.reverse l.reverse

/-- `startswith` holds on a string that begins with the needle. -/
lemma startsWithPy_append (p s : String) : startsWithPy (p ++ s) p = true := by
  show (p.data.isPrefixOf (p ++ s).data) = true
  rw [String.data_append]
  exact isPrefixOf_self_append p.data s.data

/-- `endswith` holds on a string that ends with the needle. -/
lemma endsWithPy_append (s p : String) : endsWithPy (s ++ p) p = true := by
  show (p.data.isSuffixOf (s ++ p).data) = true
  rw [String.data_append]
  exact isSuffixOf_append_self s.data p.data

/-- Slicing off a leading literal, character-wise. -/
lemma dropChars_append (p s : String) (n : Nat) (h : p.data.length = n) :
    dropChars (p ++ s) n = s := by
  show (⟨((p ++ s).data).drop n⟩ : String) = s
  rw [String.data_append, ← h, List.drop_left]

/-- Slicing off a trailing literal, character-wise. -/
lemma dropRightChars_append (s p : String) (n : Nat) (h : p.data.length = n) :
    dropRightChars (s ++ p) n = s := by
  show (⟨((s ++ p).data).take ((s ++ p).data.length - n)⟩ : String) = s
  rw [String.data_append, ← h, List.length_append, Nat.add_sub_cancel, List.take_left]

/-- Stripping the leading fence from a ```` ```json ````-prefixed text. -/
lemma stripLeadingFence_json (s : String) :
    stripLeadingFence ("```json" ++ s) = s := by
  unfold stripLeadingFence
  rw [if_pos (startsWithPy_append "```json" s)]
  exact dropChars_append "```json" s 7 rfl

/-- Stripping the leading fence from a bare ```` ``` ````-prefixed text
that does not carry the ```` ```json ```` marker. -/
lemma stripLeadingFence_bare (s : String)
    (h : startsWithPy ("```" ++ s) "```json" = false) :
    stripLeadingFence ("```" ++ s) = s := by
  unfold stripLeadingFence
  rw [if_neg (by simp [h]), if_pos (startsWithPy_append "```" s)]
  exact dropChars_append "```" s 3 rfl

/-- Stripping the trailing fence from a ```` ``` ````-suffixed text. -/
lemma stripTrailingFence_tick (s : String) :
    stripTrailingFence (s ++ "```") = s := by
  unfold stripTrailingFence
  rw [if_pos (endsWithPy_append s "```")]
  exact dropRightChars_append s "```" 3 rfl

/-- `_clean_json_response` on a ```` ```json ````-fenced text yields the
stripped body. -/
lemma cleanJson_jsonFence (s : String) :
    cleanJsonResponse ("```json" ++ s ++ "```") = pyStrip s := by
  unfold cleanJsonResponse
  rw [String.append_assoc, stripLeadingFence_json, stripTrailingFence_tick]

/-- `_clean_json_response` on a bare ```` ``` ````-fenced text (one that
does not begin with the ```` ```json ```` marker) yields the stripped
body. -/
lemma cleanJson_bareFence (s : String)
    (h : startsWithPy ("```" ++ (s ++ "```")) "```json" = false) :
    cleanJsonResponse ("```" ++ s ++ "```") = pyStrip s := by
  unfold cleanJsonResponse
  rw [String.append_assoc, stripLeadingFence_bare (s ++ "```") h, stripTrailingFence_tick]

/-- `_clean_json_response` on unfenced text just strips whitespace. -/
lemma cleanJson_noFence (r : String)
    (h1 : startsWithPy r "```json" = false)
    (h2 : startsWithPy r "```" = false)
    (h3 : endsWithPy r "```" = false) :
    cleanJsonResponse r = pyStrip r := by
  unfold cleanJsonResponse
  simp [stripLeadingFence, stripTrailingFence, h1, h2, h3]

/-- When the affirmative call fails, `generate_section_with_debate`
returns `None` and leaves the debate log untouched (source lines
311-315). -/
lemma genSec_affFail (loads : String → Option Json) (o : SectionOracle)
    (sec : SectionInfo) (prev : List Json) (prompt : String) (log : List DebateRecord)
    (h : isFalsyStr (o.aff (affirmativePrompt sec prev prompt)) = true) :
    generateSectionWithDebate loads o sec prev prompt log = (.ok none, log) := by
  unfold generateSectionWithDebate
  rw [if_pos h]

/-- When all three calls of a section succeed (in the sense of
`alwaysGoodOracle`), `generate_section_with_debate` returns the judge's
truthy `final_section` and appends exactly one debate record. -/
lemma genSec_good (loads : String → Option Json) (o : SectionOracle)
    (sec : SectionInfo) (prev : List Json) (prompt : String) (log : List DebateRecord)
    (hgood : alwaysGoodOracle loads o) :
    ∃ v r, generateSectionWithDebate loads o sec prev prompt log = (.ok (some v), log ++ [r]) ∧
      jsonFalsy v = false := by
  obtain ⟨ha, hn, hj⟩ := hgood
  obtain ⟨jd, hparse, hgd⟩ := hj (judgePrompt sec
    ((o.aff (affirmativePrompt sec prev prompt)).getD "")
    ((o.neg (negativePrompt sec ((o.aff (affirmativePrompt sec prev prompt)).getD "") prev prompt)).getD ""))
  unfold judgeParse at hparse
  cases hjf : isFalsyStr (o.judge (judgePrompt sec
      ((o.aff (affirmativePrompt sec prev prompt)).getD "")
      ((o.neg (negativePrompt sec ((o.aff (affirmativePrompt sec prev prompt)).getD "") prev prompt)).getD ""))) with
  | true => rw [if_pos hjf] at hparse; cases hparse
  | false =>
    rw [if_neg (by simp [hjf])] at hparse
    cases jd with
    | jobj entries =>
      simp only [goodJudgeDecision, dictGetOpt, Bool.and_eq_true, Bool.not_eq_true',
        Option.isSome_iff_exists] at hgd
      obtain ⟨⟨⟨hfalsy, _, hpv⟩, _, hrs⟩, hfs⟩ := hgd
      cases hlu : entries.lookup "final_section" with
      | none => rw [hlu] at hfs; cases hfs
      | some v =>
        rw [hlu] at hfs
        refine ⟨v,
          { sectionNum := sec.sectionNum, title := sec.title,
            affirmative_draft := (o.aff (affirmativePrompt sec prev prompt)).getD "",
            negative_draft := (o.neg (negativePrompt sec
              ((o.aff (affirmativePrompt sec prev prompt)).getD "") prev prompt)).getD "",
            judge_decision := .jobj entries }, ?_, by simpa using hfs⟩
        simp only [generateSectionWithDebate, judgeEditor, ha, hn, hjf, hparse,
          Bool.false_eq_true, if_false, hfalsy, jsonGet, hpv, hrs, hlu]
    | jnull => simp [goodJudgeDecision, dictGetOpt] at hgd
    | jbool b => simp [goodJudgeDecision, dictGetOpt] at hgd
    | jnum n => simp [goodJudgeDecision, dictGetOpt] at hgd
    | jstr s => simp [goodJudgeDecision, dictGetOpt] at hgd
    | jarr a => simp [goodJudgeDecision, dictGetOpt] at hgd

/-- Running the loop over a prefix of all-good sections extends the run
state by one story entry, one finalized section, one debate record and
one supplied-context snapshot per section, then continues with the rest
of the outline. -/
lemma runSections_good_pre (loads : String → Option Json) (prompt : String) :
    ∀ (pre xs : List (SectionInfo × SectionOracle)) (st : RunState),
    (∀ it ∈ pre, alwaysGoodOracle loads it.2) →
    ∃ finals recs sups,
      finals.length = pre.length ∧ recs.length = pre.length ∧ sups.length = pre.length ∧
      runSections loads prompt (pre ++ xs) st =
        runSections loads prompt xs
          { completeStory := st.completeStory ++ List.zipWith renderSection (pre.map Prod.fst) finals,
            previousSections := st.previousSections ++ finals,
            debateLog := st.debateLog ++ recs,
            suppliedContexts := st.suppliedContexts ++ sups }
  | [], xs, st, _ => ⟨[], [], [], rfl, rfl, rfl, by simp⟩
  | (sec, o) :: pre, xs, st, h => by
    obtain ⟨v, r, heq, hv⟩ := genSec_good loads o sec st.previousSections prompt st.debateLog
      (h (sec, o) (by simp))
    obtain ⟨finals, recs, sups, hf, hr, hs, hrun⟩ :=
      runSections_good_pre loads prompt pre xs
        { completeStory := st.completeStory ++ [renderSection sec v],
          previousSections := st.previousSections ++ [v],
          debateLog := st.debateLog ++ [r],
          suppliedContexts := st.suppliedContexts ++ [st.previousSections] }
        (fun it hit => h it (by simp [hit]))
    refine ⟨v :: finals, r :: recs, st.previousSections :: sups,
      by simp [hf], by simp [hr], by simp [hs], ?_⟩
    rw [List.cons_append]
    show (match generateSectionWithDebate loads o sec st.previousSections prompt st.debateLog with
      | (.error e, log1) =>
        ({ { st with suppliedContexts := st.suppliedContexts ++ [st.previousSections] } with
            debateLog := log1 }, some e)
      | (.ok none, log1) =>
        ({ { st with suppliedContexts := st.suppliedContexts ++ [st.previousSections] } with
            debateLog := log1 }, none)
      | (.ok (some j), log1) =>
        if jsonFalsy j then
          ({ { st with suppliedContexts := st.suppliedContexts ++ [st.previousSections] } with
              debateLog := log1 }, none)
        else
          runSections loads prompt (pre ++ xs)
            { completeStory := st.completeStory ++ [renderSection sec j],
              previousSections := st.previousSections ++ [j],
              debateLog := log1,
              suppliedContexts := st.suppliedContexts ++ [st.previousSections] }) = _
    rw [heq]
    simp only [hv, Bool.false_eq_true, if_false]
    rw [hrun]
    congr 1
    simp [RunState.mk.injEq, List.append_assoc]

/-- Unfolding equation of `runSections` on an empty outline. -/
lemma runSections_nil (loads : String → Option Json) (prompt : String) (st : RunState) :
    runSections loads prompt [] st = (st, none) := rfl

/-- Unfolding equation of `runSections` on one outline entry. -/
lemma runSections_cons (loads : String → Option Json) (prompt : String)
    (sec : SectionInfo) (o : SectionOracle)
    (items : List (SectionInfo × SectionOracle)) (st : RunState) :
    runSections loads prompt ((sec, o) :: items) st =
      match generateSectionWithDebate loads o sec st.previousSections prompt st.debateLog with
      | (.error e, log1) =>
        ({ st with suppliedContexts := st.suppliedContexts ++ [st.previousSections],
                   debateLog := log1 }, some e)
      | (.ok none, log1) =>
        ({ st with suppliedContexts := st.suppliedContexts ++ [st.previousSections],
                   debateLog := log1 }, none)
      | (.ok (some j), log1) =>
        if jsonFalsy j then
          ({ st with suppliedContexts := st.suppliedContexts ++ [st.previousSections],
                     debateLog := log1 }, none)
        else
          runSections loads prompt items
            { completeStory := st.completeStory ++ [renderSection sec j],
              previousSections := st.previousSections ++ [j],
              debateLog := log1,
              suppliedContexts := st.suppliedContexts ++ [st.previousSections] } := rfl

/-- Whatever the call outcomes, the final `complete_story` extends the
starting one by renderings of a prefix of the outline entries, matched
one-to-one with the finalized texts appended to `previous_sections`. -/
lemma runSections_shape (loads : String → Option Json) (prompt : String) :
    ∀ (items : List (SectionInfo × SectionOracle)) (st : RunState),
    ∃ ds finals ds2,
      items.map Prod.fst = ds ++ ds2 ∧
      finals.length = ds.length ∧
      (runSections loads prompt items st).1.completeStory
        = st.completeStory ++ List.zipWith renderSection ds finals ∧
      (runSections loads prompt items st).1.previousSections
        = st.previousSections ++ finals
  | [], st => ⟨[], [], [], rfl, rfl, by simp [runSections_nil], by simp [runSections_nil]⟩
  | (sec, o) :: items, st => by
    rw [runSections_cons]
    rcases hres : generateSectionWithDebate loads o sec st.previousSections prompt st.debateLog
      with ⟨res, log1⟩
    match res with
    | .error e =>
      exact ⟨[], [], sec :: items.map Prod.fst, rfl, rfl, by simp, by simp⟩
    | .ok none =>
      exact ⟨[], [], sec :: items.map Prod.fst, rfl, rfl, by simp, by simp⟩
    | .ok (some j) =>
      cases hjf : jsonFalsy j with
      | true =>
        simp only [hjf, if_true]
        exact ⟨[], [], sec :: items.map Prod.fst, rfl, rfl, by simp, by simp⟩
      | false =>
        simp only [hjf, Bool.false_eq_true, if_false]
        obtain ⟨ds, finals, ds2, hmap, hlen, hcs, hps⟩ :=
          runSections_shape loads prompt items
            { completeStory := st.completeStory ++ [renderSection sec j],
              previousSections := st.previousSections ++ [j],
              debateLog := log1,
              suppliedContexts := st.suppliedContexts ++ [st.previousSections] }
        refine ⟨sec :: ds, j :: finals, ds2, by simp [hmap], by simp [hlen], ?_, ?_⟩
        · rw [hcs]; simp [List.append_assoc]
        · rw [hps]; simp [List.append_assoc]

/-- Appending the current `previous_sections` as a new supplied-context
snapshot preserves the prefix property even after `previous_sections`
itself grows. -/
lemma supplied_snoc (sup : List (List Json)) (prev next : List Json)
    (hlen : sup.length = prev.length)
    (h : ∀ i, i < sup.length → sup[i]? = some (prev.take i))
    (hpre : ∀ i, i ≤ prev.length → next.take i = prev.take i) :
    ∀ i, i < (sup ++ [prev]).length → (sup ++ [prev])[i]? = some (next.take i) := by
  intro i hi
  rw [List.length_append, List.length_singleton] at hi
  rcases Nat.lt_or_ge i sup.length with hlt | hge
  · rw [List.getElem?_append_left hlt, h i hlt, hpre i (by omega)]
  · have hieq : i = sup.length := by omega
    subst hieq
    rw [List.getElem?_concat_length, hpre sup.length (by omega)]
    rw [hlen, List.take_length]

/-- Invariant of the section loop: every supplied-context snapshot is
exactly the prefix of the finalized sections that had been completed when
it was taken. -/
lemma runSections_ctx (loads : String → Option Json) (prompt : String) :
    ∀ (items : List (SectionInfo × SectionOracle)) (st : RunState),
    st.suppliedContexts.length = st.previousSections.length →
    (∀ i, i < st.suppliedContexts.length →
      st.suppliedContexts[i]? = some (st.previousSections.take i)) →
    (runSections loads prompt items st).1.suppliedContexts.length
        ≤ (runSections loads prompt items st).1.previousSections.length + 1 ∧
    ∀ i, i < (runSections loads prompt items st).1.suppliedContexts.length →
      (runSections loads prompt items st).1.suppliedContexts[i]?
        = some ((runSections loads prompt items st).1.previousSections.take i)
  | [], st => fun hlen h => ⟨by simp [runSections_nil, hlen], fun i hi => by
      simpa [runSections_nil] using h i (by simpa [runSections_nil] using hi)⟩
  | (sec, o) :: items, st => fun hlen h => by
    rw [runSections_cons]
    rcases hres : generateSectionWithDebate loads o sec st.previousSections prompt st.debateLog
      with ⟨res, log1⟩
    match res with
    | .error e =>
      refine ⟨by simp [hlen], ?_⟩
      exact supplied_snoc st.suppliedContexts st.previousSections st.previousSections hlen h
        (fun _ _ => rfl)
    | .ok none =>
      refine ⟨by simp [hlen], ?_⟩
      exact supplied_snoc st.suppliedContexts st.previousSections st.previousSections hlen h
        (fun _ _ => rfl)
    | .ok (some j) =>
      cases hjf : jsonFalsy j with
      | true =>
        simp only [hjf, if_true]
        refine ⟨by simp [hlen], ?_⟩
        exact supplied_snoc st.suppliedContexts st.previousSections st.previousSections hlen h
          (fun _ _ => rfl)
      | false =>
        simp only [hjf, Bool.false_eq_true, if_false]
        exact runSections_ctx loads prompt items
          { completeStory := st.completeStory ++ [renderSection sec j],
            previousSections := st.previousSections ++ [j],
            debateLog := log1,
            suppliedContexts := st.suppliedContexts ++ [st.previousSections] }
          (by simp [hlen])
          (supplied_snoc st.suppliedContexts st.previousSections (st.previousSections ++ [j]) hlen h
            (fun i hi => List.take_append_of_le_length hi))

/-- The run state returned by `generate_complete_debate_story` is the
final state of the section loop. -/
lemma driver_state (loads : String → Option Json) (prompt title : String)
    (items : List (SectionInfo × SectionOracle)) :
    (generateCompleteDebateStory loads prompt title items).2
      = (runSections loads prompt items ⟨[], [], [], []⟩).1 := by
  unfold generateCompleteDebateStory
  rcases hr : runSections loads prompt items ⟨[], [], [], []⟩ with ⟨st, err⟩
  cases err with
  | none => by_cases hce : st.completeStory.isEmpty <;> simp [hce]
  | some e => simp

/-- When `generate_complete_debate_story` returns a story, it is the
title header followed by the accumulated `complete_story` entries joined
with blank lines. -/
lemma driver_some (loads : String → Option Json) (prompt title : String)
    (items : List (SectionInfo × SectionOracle)) (story : String)
    (h : (generateCompleteDebateStory loads prompt title items).1 = .ok (some story)) :
    story = "# " ++ title ++ "\n\n" ++
      String.intercalate "\n\n" (runSections loads prompt items ⟨[], [], [], []⟩).1.completeStory := by
  unfold generateCompleteDebateStory at h
  rcases hr : runSections loads prompt items ⟨[], [], [], []⟩ with ⟨st, err⟩
  rw [hr] at h
  cases err with
  | none =>
    by_cases hce : st.completeStory.isEmpty
    · simp [hce] at h
    · simp only [hce, Bool.false_eq_true, if_false] at h
      injection h with h1
      injection h1 with h2
      exact h2.symm
  | some e => simp at h

/-- A usage report whose `total_tokens` is the sum of its prompt and
completion counts (the service reports the three fields independently;
nothing in the source checks this). -/
def usageConsistent : Option UsageData → Bool
  | none => true
  | some d => d.total_tokens == d.prompt_tokens + d.completion_tokens

/-- Folding recorded calls over the usage state preserves the equality
between the global total and the sum of derived per-agent totals, as long
as every recorded report is internally consistent. -/
lemma usage_fold_total :
    ∀ (events : List (AgentType × Option UsageData)) (st : TokenUsage),
    (∀ e ∈ events, usageConsistent e.2 = true) →
    st.total_tokens = byAgentTotalSum st →
    (events.foldl (fun s e => recordUsage s e.1 e.2) st).total_tokens
      = byAgentTotalSum (events.foldl (fun s e => recordUsage s e.1 e.2) st)
  | [], _, _, h => h
  | (ag, u) :: events, st, hc, h => by
    apply usage_fold_total events _ (fun e he => hc e (List.mem_cons_of_mem _ he))
    have hu := hc (ag, u) (List.mem_cons_self _ _)
    cases u with
    | none => exact h
    | some d =>
      simp only [usageConsistent, beq_iff_eq] at hu
      cases ag <;>
        simp [recordUsage, bumpAgent, byAgentTotalSum, agentTotal, h, hu] <;> omega

/-- An oracle that completes its section from any state: the debate
returns a truthy final text (possibly via the affirmative fallback) and
only ever appends to the debate log. -/
def completingOracle (loads : String → Option Json) (prompt : String) (o : SectionOracle) : Prop :=
  ∀ (sec : SectionInfo) (prev : List Json) (log : List DebateRecord),
    ∃ v recs, generateSectionWithDebate loads o sec prev prompt log = (.ok (some v), log ++ recs) ∧
      jsonFalsy v = false

/-- An all-good oracle completes its section. -/
lemma completing_of_good (loads : String → Option Json) (prompt : String) (o : SectionOracle)
    (h : alwaysGoodOracle loads o) : completingOracle loads prompt o := by
  intro sec prev log
  obtain ⟨v, r, heq, hv⟩ := genSec_good loads o sec prev prompt log h
  exact ⟨v, [r], heq, hv⟩

/-- Running the loop over a prefix of completing sections extends the run
state by one story entry and one finalized section per section (and some
debate records), then continues with the rest of the outline — the same
continuation state for every rest. -/
lemma runSections_completing_pre (loads : String → Option Json) (prompt : String) :
    ∀ (pre : List (SectionInfo × SectionOracle)) (st : RunState),
    (∀ it ∈ pre, completingOracle loads prompt it.2) →
    ∃ finals recs sups,
      finals.length = pre.length ∧ sups.length = pre.length ∧
      ∀ xs, runSections loads prompt (pre ++ xs) st =
        runSections loads prompt xs
          { completeStory := st.completeStory ++ List.zipWith renderSection (pre.map Prod.fst) finals,
            previousSections := st.previousSections ++ finals,
            debateLog := st.debateLog ++ recs,
            suppliedContexts := st.suppliedContexts ++ sups }
  | [], st, _ => ⟨[], [], [], rfl, rfl, fun xs => by simp⟩
  | (sec, o) :: pre, st, h => by
    obtain ⟨v, recs0, heq, hv⟩ := h (sec, o) (by simp) sec st.previousSections st.debateLog
    obtain ⟨finals, recs, sups, hf, hs, hrun⟩ :=
      runSections_completing_pre loads prompt pre
        { completeStory := st.completeStory ++ [renderSection sec v],
          previousSections := st.previousSections ++ [v],
          debateLog := st.debateLog ++ recs0,
          suppliedContexts := st.suppliedContexts ++ [st.previousSections] }
        (fun it hit => h it (by simp [hit]))
    refine ⟨v :: finals, recs0 ++ recs, st.previousSections :: sups,
      by simp [hf], by simp [hs], fun xs => ?_⟩
    rw [List.cons_append]
    show (match generateSectionWithDebate loads o sec st.previousSections prompt st.debateLog with
      | (.error e, log1) =>
        ({ { st with suppliedContexts := st.suppliedContexts ++ [st.previousSections] } with
            debateLog := log1 }, some e)
      | (.ok none, log1) =>
        ({ { st with suppliedContexts := st.suppliedContexts ++ [st.previousSections] } with
            debateLog := log1 }, none)
      | (.ok (some j), log1) =>
        if jsonFalsy j then
          ({ { st with suppliedContexts := st.suppliedContexts ++ [st.previousSections] } with
              debateLog := log1 }, none)
        else
          runSections loads prompt (pre ++ xs)
            { completeStory := st.completeStory ++ [renderSection sec j],
              previousSections := st.previousSections ++ [j],
              debateLog := log1,
              suppliedContexts := st.suppliedContexts ++ [st.previousSections] }) = _
    rw [heq]
    simp only [hv, Bool.false_eq_true, if_false]
    rw [hrun xs]
    congr 1
    simp [RunState.mk.injEq, List.append_assoc]

/-- `goodOracle` satisfies `alwaysGoodOracle` under `demoLoads`. -/
lemma goodOracle_good : alwaysGoodOracle demoLoads goodOracle :=
  ⟨fun _ => rfl, fun _ => rfl, fun _ => ⟨judgeGoodJson, rfl, rfl⟩⟩

/-- `goodOracle2` satisfies `alwaysGoodOracle` under `demoLoads`. -/
lemma goodOracle2_good : alwaysGoodOracle demoLoads goodOracle2 :=
  ⟨fun _ => rfl, fun _ => rfl, fun _ => ⟨judgeGood2Json, rfl, rfl⟩⟩

/-- When the loop terminates without an exception and produced at least
one section, the generator returns the assembled story together with the
final loop state. -/
lemma driver_of_run_none (loads : String → Option Json) (prompt title : String)
    (items : List (SectionInfo × SectionOracle)) (st : RunState)
    (h : runSections loads prompt items ⟨[], [], [], []⟩ = (st, none))
    (hne : st.completeStory ≠ []) :
    generateCompleteDebateStory loads prompt title items =
      (.ok (some ("# " ++ title ++ "\n\n" ++ String.intercalate "\n\n" st.completeStory)), st) := by
  unfold generateCompleteDebateStory
  rw [h]
  simp [hne]

/-! ### Claim theorems -/

/-- Claim C1, counterexample to the claim as stated: on a run where the
negative-critic call fails after a successful affirmative draft, the
final text is the affirmative draft verbatim, but the debate log stays
empty — no `DebateRecord` is recorded for the section, contradicting the
claim's "a DebateRecord for that section is still recorded". -/
theorem claim_C1_counterexample :
    (generateSectionWithDebate demoLoads oracleNegFails demoSec1 [] "p" []).2 = [] ∧
    (generateSectionWithDebate demoLoads oracleNegFails demoSec1 [] "p" []).1
      = .ok (some (.jstr "AFF")) :=
  ⟨rfl, rfl⟩

/-- Claim C1, amended: if the negative-critic call fails (returns no
usable text) after a successful affirmative draft, the section's final
text equals the affirmative draft verbatim and no judge decision exists,
but no `DebateRecord` is recorded for the section — the debate log is
returned unchanged. -/
theorem claim_C1_negative_fallback (loads : String → Option Json) (o : SectionOracle)
    (sec : SectionInfo) (prev : List Json) (prompt : String) (log : List DebateRecord)
    (h1 : isFalsyStr (o.aff (affirmativePrompt sec prev prompt)) = false)
    (h2 : isFalsyStr (o.neg (negativePrompt sec
      ((o.aff (affirmativePrompt sec prev prompt)).getD "") prev prompt)) = true) :
    generateSectionWithDebate loads o sec prev prompt log =
      (.ok (some (.jstr ((o.aff (affirmativePrompt sec prev prompt)).getD ""))), log) := by
  simp only [generateSectionWithDebate, h1, Bool.false_eq_true, if_false, h2, if_true]

/-- Witness for C1's amended theorem at a concrete input. -/
theorem claim_C1_witness :
    generateSectionWithDebate demoLoads oracleNegFails demoSec2 [] "p2" [] =
      (.ok (some (.jstr "AFF")), []) :=
  claim_C1_negative_fallback demoLoads oracleNegFails demoSec2 [] "p2" [] rfl rfl

/-- Claim C2, counterexample to the claim as stated: on a run where the
judge response is unparsable, the final text is the affirmative draft,
but the debate log stays empty — no `DebateRecord` is recorded for the
section, contradicting the claim's "a DebateRecord for that section is
recorded without a judge_decision". -/
theorem claim_C2_counterexample :
    (generateSectionWithDebate demoLoads oracleJudgeUnparsable demoSec1 [] "p" []).2 = [] ∧
    (generateSectionWithDebate demoLoads oracleJudgeUnparsable demoSec1 [] "p" []).1
      = .ok (some (.jstr "AFF")) :=
  ⟨rfl, rfl⟩

/-- Claim C2, amended: if the judge call fails or returns a structure
that cannot be parsed, the section's final text equals the affirmative
draft (same fallback as a negative failure), but no `DebateRecord` is
recorded for the section — the debate log is returned unchanged. -/
theorem claim_C2_judge_fallback (loads : String → Option Json) (o : SectionOracle)
    (sec : SectionInfo) (prev : List Json) (prompt : String) (log : List DebateRecord)
    (h1 : isFalsyStr (o.aff (affirmativePrompt sec prev prompt)) = false)
    (h2 : isFalsyStr (o.neg (negativePrompt sec
      ((o.aff (affirmativePrompt sec prev prompt)).getD "") prev prompt)) = false)
    (h3 : judgeParse loads (o.judge (judgePrompt sec
      ((o.aff (affirmativePrompt sec prev prompt)).getD "")
      ((o.neg (negativePrompt sec
        ((o.aff (affirmativePrompt sec prev prompt)).getD "") prev prompt)).getD ""))) = none) :
    generateSectionWithDebate loads o sec prev prompt log =
      (.ok (some (.jstr ((o.aff (affirmativePrompt sec prev prompt)).getD ""))), log) := by
  unfold judgeParse at h3
  cases hjf : isFalsyStr (o.judge (judgePrompt sec
      ((o.aff (affirmativePrompt sec prev prompt)).getD "")
      ((o.neg (negativePrompt sec
        ((o.aff (affirmativePrompt sec prev prompt)).getD "") prev prompt)).getD ""))) with
  | true =>
    simp only [generateSectionWithDebate, judgeEditor, h1, h2, Bool.false_eq_true, if_false,
      hjf, if_true]
  | false =>
    rw [if_neg (by simp [hjf])] at h3
    simp only [generateSectionWithDebate, judgeEditor, h1, h2, Bool.false_eq_true, if_false,
      hjf, h3]

/-- Witness for C2's amended theorem at a concrete input. -/
theorem claim_C2_witness :
    generateSectionWithDebate demoLoads oracleJudgeUnparsable demoSec2 [] "p2" [] =
      (.ok (some (.jstr "AFF")), []) :=
  claim_C2_judge_fallback demoLoads oracleJudgeUnparsable demoSec2 [] "p2" [] rfl rfl rfl

/-- Claim C6, counterexample to the claim as stated: a single recorded
call whose reported `total_tokens` (3) differs from
`prompt_tokens + completion_tokens` (1 + 1) makes the global
`total_tokens` differ from the sum of the per-role totals (which can only
be derived as prompt + completion, since the per-role buckets store no
total field). -/
theorem claim_C6_counterexample :
    ¬ ((runUsage [(.affirmative_writer, some ⟨1, 1, 3⟩)]).total_tokens
        = byAgentTotalSum (runUsage [(.affirmative_writer, some ⟨1, 1, 3⟩)])) := by
  decide

/-- Claim C6, amended: for any sequence of recorded calls in which every
usage report satisfies `total_tokens = prompt_tokens + completion_tokens`,
the global total token count equals the sum of the derived per-role total
token counts across the four roles. -/
theorem claim_C6_usage_additivity (events : List (AgentType × Option UsageData))
    (hc : ∀ e ∈ events, usageConsistent e.2 = true) :
    (runUsage events).total_tokens = byAgentTotalSum (runUsage events) :=
  usage_fold_total events initTokenUsage hc rfl

/-- Witness for C6's amended theorem at a concrete event sequence. -/
theorem claim_C6_witness :
    (runUsage [(.judge_editor, some ⟨2, 3, 5⟩), (.outline_generator, none)]).total_tokens
      = byAgentTotalSum (runUsage [(.judge_editor, some ⟨2, 3, 5⟩), (.outline_generator, none)]) :=
  claim_C6_usage_additivity [(.judge_editor, some ⟨2, 3, 5⟩), (.outline_generator, none)]
    (by decide)

/-- Claim C7, counterexample to the claim as stated: a model response
that parses as valid JSON but contains only two outline entries, numbered
5 and 9, is returned by outline generation unchanged — the returned
outline has neither six sections nor contiguous 1-based indices. -/
theorem claim_C7_counterexample :
    generateStoryOutline demoLoads (some ("```json\n" ++ outlineTwoStr ++ "\n```"))
      = some outlineTwoJson ∧
    outlineSectionCount outlineTwoJson = some 2 ∧
    outlineSectionIndices outlineTwoJson = some [some (.jnum 5), some (.jnum 9)] :=
  ⟨rfl, rfl, rfl⟩

/-- Claim C7, amended: outline generation performs no validation — for
every non-falsy model response it returns the parse of the cleaned
response text verbatim, so the six-section / contiguous-index invariant
holds only when the model's response happens to satisfy it. -/
theorem claim_C7_no_validation (loads : String → Option Json) (r : String)
    (h : isFalsyStr (some r) = false) :
    generateStoryOutline loads (some r) = loads (cleanJsonResponse r) := by
  unfold generateStoryOutline
  rw [if_neg (by simp [h])]
  rfl

/-- Witness for C7's amended theorem at a concrete input. -/
theorem claim_C7_witness :
    generateStoryOutline demoLoads (some "xyz") = demoLoads (cleanJsonResponse "xyz") :=
  claim_C7_no_validation demoLoads "xyz" rfl

/-- Claim C8: outline generation strips an optional leading
```` ```json ```` or ```` ``` ```` fence and an optional trailing
```` ``` ```` fence (plus surrounding whitespace, per `str.strip()`)
before parsing, and when the cleaned text is not valid JSON it returns
the failure value `None` — the `json.JSONDecodeError` is caught and does
not propagate into the pipeline. -/
theorem claim_C8_fence_stripping (loads : String → Option Json) (s r : String) :
    cleanJsonResponse ("```json" ++ s ++ "```") = pyStrip s ∧
    (startsWithPy ("```" ++ (s ++ "```")) "```json" = false →
      cleanJsonResponse ("```" ++ s ++ "```") = pyStrip s) ∧
    (startsWithPy r "```json" = false → startsWithPy r "```" = false →
      endsWithPy r "```" = false → cleanJsonResponse r = pyStrip r) ∧
    (isFalsyStr (some r) = false → loads (cleanJsonResponse r) = none →
      generateStoryOutline loads (some r) = none) :=
  ⟨cleanJson_jsonFence s, cleanJson_bareFence s, cleanJson_noFence r,
   fun h1 h2 => by
    unfold generateStoryOutline
    rw [if_neg (by simp [h1])]
    exact h2⟩

/-- Witness for C8 at concrete inputs. -/
theorem claim_C8_witness :
    cleanJsonResponse ("```json" ++ "\n \x7b\x7d \n" ++ "```") = pyStrip "\n \x7b\x7d \n" ∧
    cleanJsonResponse ("```" ++ "body" ++ "```") = pyStrip "body" ∧
    cleanJsonResponse "plain" = pyStrip "plain" ∧
    generateStoryOutline demoLoads (some "plain") = none :=
  ⟨(claim_C8_fence_stripping demoLoads "\n \x7b\x7d \n" "plain").1,
   (claim_C8_fence_stripping demoLoads "body" "plain").2.1 (by decide),
   (claim_C8_fence_stripping demoLoads "body" "plain").2.2.1 (by decide) (by decide) (by decide),
   (claim_C8_fence_stripping demoLoads "body" "plain").2.2.2 rfl rfl⟩

/-- Claim C10: a judge response that parses as valid JSON (a truthy dict)
but lacks the `final_section` key makes `generate_section_with_debate`
raise an uncaught `KeyError` — the section does not fall back to the
affirmative draft, and the whole run aborts with that exception. -/
theorem claim_C10_keyError :
    (generateSectionWithDebate demoLoads oracleJudgeNoFinal demoSec1 [] "p" []).1
      = .error (.keyError "final_section") ∧
    (generateCompleteDebateStory demoLoads "p" "T" [(demoSec1, oracleJudgeNoFinal)]).1
      = .error (.keyError "final_section") :=
  ⟨rfl, rfl⟩

/-- Claim C3, counterexample to the claim as stated: a run over a single
outline section whose negative call fails completes the section via the
affirmative fallback, so the assembled story has one section while the
debate log has zero records — the counts differ although one section was
processed. -/
theorem claim_C3_counterexample :
    (generateCompleteDebateStory demoLoads "p" "T" [(demoSec1, oracleNegFails)]).2.completeStory.length = 1 ∧
    (generateCompleteDebateStory demoLoads "p" "T" [(demoSec1, oracleNegFails)]).2.debateLog.length = 0 ∧
    (generateCompleteDebateStory demoLoads "p" "T" [(demoSec1, oracleNegFails)]).2.suppliedContexts.length = 1 :=
  ⟨rfl, rfl, rfl⟩

/-- Claim C3, amended: when every processed section's three calls succeed
(affirmative and negative return usable text and the judge response
parses to a usable decision), the number of assembled story sections, the
number of debate-log records, and the number of outline sections
processed all coincide; in general the story counts completed sections
while the log counts only judge-parse successes, which can be fewer. -/
theorem claim_C3_counts (loads : String → Option Json) (prompt title : String)
    (items : List (SectionInfo × SectionOracle))
    (h : ∀ it ∈ items, alwaysGoodOracle loads it.2) :
    (generateCompleteDebateStory loads prompt title items).2.completeStory.length = items.length ∧
    (generateCompleteDebateStory loads prompt title items).2.debateLog.length = items.length ∧
    (generateCompleteDebateStory loads prompt title items).2.suppliedContexts.length = items.length := by
  obtain ⟨finals, recs, sups, hf, hr, hs, hrun⟩ :=
    runSections_good_pre loads prompt items [] ⟨[], [], [], []⟩ h
  rw [List.append_nil] at hrun
  rw [driver_state, hrun, runSections_nil]
  refine ⟨?_, by simp [hr], by simp [hs]⟩
  simp [List.length_zipWith, hf]

/-- Witness for C3's amended theorem at a concrete two-section run. -/
theorem claim_C3_witness :
    (generateCompleteDebateStory demoLoads "p" "T"
      [(demoSec1, goodOracle), (demoSec2, goodOracle2)]).2.completeStory.length = 2 ∧
    (generateCompleteDebateStory demoLoads "p" "T"
      [(demoSec1, goodOracle), (demoSec2, goodOracle2)]).2.debateLog.length = 2 ∧
    (generateCompleteDebateStory demoLoads "p" "T"
      [(demoSec1, goodOracle), (demoSec2, goodOracle2)]).2.suppliedContexts.length = 2 :=
  claim_C3_counts demoLoads "p" "T" [(demoSec1, goodOracle), (demoSec2, goodOracle2)]
    (by
      intro it hit
      rcases List.mem_cons.mp hit with h1 | h2
      · subst h1; exact goodOracle_good
      · rcases List.mem_cons.mp h2 with h3 | h4
        · subst h3; exact goodOracle2_good
        · exact absurd h4 (List.not_mem_nil it))

/-- Claim C4: when the affirmative call fails on the section following a
prefix of completing sections, the run's final state is the prefix's end
state with exactly one more supplied-context snapshot: the debate log is
unchanged (no record for the failing section), no outline entry after the
failing one influences the outcome (the loop stops immediately), and the
prefix's completed sections — one story entry per finalized section, in
order — are still assembled and returned as a partial story. -/
theorem claim_C4_affirmative_stop (loads : String → Option Json) (prompt title : String)
    (pre rest : List (SectionInfo × SectionOracle)) (failSec : SectionInfo) (failO : SectionOracle)
    (hpre : ∀ it ∈ pre, completingOracle loads prompt it.2)
    (hfail : ∀ p, isFalsyStr (failO.aff p) = true)
    (hne : pre ≠ []) :
    ∃ stPre : RunState,
      runSections loads prompt pre ⟨[], [], [], []⟩ = (stPre, none) ∧
      stPre.completeStory = List.zipWith renderSection (pre.map Prod.fst) stPre.previousSections ∧
      stPre.previousSections.length = pre.length ∧
      stPre.suppliedContexts.length = pre.length ∧
      generateCompleteDebateStory loads prompt title (pre ++ (failSec, failO) :: rest)
        = (.ok (some ("# " ++ title ++ "\n\n" ++ String.intercalate "\n\n" stPre.completeStory)),
           { stPre with suppliedContexts := stPre.suppliedContexts ++ [stPre.previousSections] }) := by
  obtain ⟨finals, recs, sups, hf, hs, hrun⟩ :=
    runSections_completing_pre loads prompt pre ⟨[], [], [], []⟩ hpre
  have hpreRun := hrun []
  rw [List.append_nil, runSections_nil] at hpreRun
  have hstop := hrun ((failSec, failO) :: rest)
  rw [runSections_cons] at hstop
  rw [genSec_affFail loads failO failSec _ prompt _ (hfail _)] at hstop
  have hne2 : ([] : List String) ++ List.zipWith renderSection (pre.map Prod.fst) finals ≠ [] := by
    intro hcon
    have hlen := congrArg List.length hcon
    simp only [List.nil_append, List.length_zipWith, List.length_map, hf,
      Nat.min_self, List.length_nil] at hlen
    exact hne (List.length_eq_zero.mp hlen)
  refine ⟨_, hpreRun, by simp, by simp [hf], by simp [hs], ?_⟩
  exact driver_of_run_none loads prompt title (pre ++ (failSec, failO) :: rest) _ hstop hne2

/-- Witness for C4 at a concrete run: one good section, then a failing
affirmative, then a further outline entry that is never attempted. -/
theorem claim_C4_witness :
    ∃ stPre : RunState,
      runSections demoLoads "p" [(demoSec1, goodOracle)] ⟨[], [], [], []⟩ = (stPre, none) ∧
      stPre.completeStory
        = List.zipWith renderSection ([(demoSec1, goodOracle)].map Prod.fst) stPre.previousSections ∧
      stPre.previousSections.length = 1 ∧
      stPre.suppliedContexts.length = 1 ∧
      generateCompleteDebateStory demoLoads "p" "T"
          ([(demoSec1, goodOracle)] ++ (demoSec2, oracleAffFails) :: [(demoSec3, goodOracle2)])
        = (.ok (some ("# " ++ "T" ++ "\n\n" ++ String.intercalate "\n\n" stPre.completeStory)),
           { stPre with suppliedContexts := stPre.suppliedContexts ++ [stPre.previousSections] }) :=
  claim_C4_affirmative_stop demoLoads "p" "T" [(demoSec1, goodOracle)] [(demoSec3, goodOracle2)]
    demoSec2 oracleAffFails
    (by
      intro it hit
      rcases List.mem_cons.mp hit with h1 | h2
      · subst h1; exact completing_of_good demoLoads "p" goodOracle goodOracle_good
      · exact absurd h2 (List.not_mem_nil it))
    (fun _ => rfl)
    (by simp)

/-- Claim C5: every supplied-context snapshot — the `previous_sections`
value handed to `generate_section_with_debate`, which passes it verbatim
to both the affirmative and the negative prompt construction — is exactly
the ordered prefix of the finalized section texts completed before that
call, and consecutive snapshots grow by appending a single entry. -/
theorem claim_C5_context (loads : String → Option Json) (prompt title : String)
    (items : List (SectionInfo × SectionOracle)) (i : Nat)
    (h : i < (generateCompleteDebateStory loads prompt title items).2.suppliedContexts.length) :
    (generateCompleteDebateStory loads prompt title items).2.suppliedContexts[i]?
      = some ((generateCompleteDebateStory loads prompt title items).2.previousSections.take i) ∧
    (i + 1 < (generateCompleteDebateStory loads prompt title items).2.suppliedContexts.length →
      ∃ x, (generateCompleteDebateStory loads prompt title items).2.suppliedContexts[i + 1]?
        = some ((generateCompleteDebateStory loads prompt title items).2.previousSections.take i ++ [x])) := by
  obtain ⟨hlen, hctx⟩ := runSections_ctx loads prompt items ⟨[], [], [], []⟩ rfl
    (by intro i hi; simp at hi)
  rw [driver_state] at h ⊢
  refine ⟨hctx i h, fun hi1 => ?_⟩
  have hip : i < (runSections loads prompt items ⟨[], [], [], []⟩).1.previousSections.length := by
    omega
  refine ⟨(runSections loads prompt items ⟨[], [], [], []⟩).1.previousSections[i], ?_⟩
  rw [hctx (i + 1) hi1, List.take_succ, List.getElem?_eq_getElem hip]
  rfl

/-- Witness for C5 at a concrete two-section run, at snapshot index 0. -/
theorem claim_C5_witness :
    (generateCompleteDebateStory demoLoads "p" "T"
      [(demoSec1, goodOracle), (demoSec2, goodOracle2)]).2.suppliedContexts[0]?
      = some ((generateCompleteDebateStory demoLoads "p" "T"
          [(demoSec1, goodOracle), (demoSec2, goodOracle2)]).2.previousSections.take 0) ∧
    (0 + 1 < (generateCompleteDebateStory demoLoads "p" "T"
        [(demoSec1, goodOracle), (demoSec2, goodOracle2)]).2.suppliedContexts.length →
      ∃ x, (generateCompleteDebateStory demoLoads "p" "T"
          [(demoSec1, goodOracle), (demoSec2, goodOracle2)]).2.suppliedContexts[0 + 1]?
        = some ((generateCompleteDebateStory demoLoads "p" "T"
            [(demoSec1, goodOracle), (demoSec2, goodOracle2)]).2.previousSections.take 0 ++ [x])) :=
  claim_C5_context demoLoads "p" "T" [(demoSec1, goodOracle), (demoSec2, goodOracle2)] 0
    (by decide)

/-- Claim C9: whenever the generator returns an assembled story, that
story is the title header `"# {title}\n\n"` followed by the renderings
`"## {section.title}\n\n{final_text}"` of the completed sections — a
prefix of the outline, in outline order, matched one-to-one with the
finalized texts — joined with blank lines. -/
theorem claim_C9_assembly (loads : String → Option Json) (prompt title : String)
    (items : List (SectionInfo × SectionOracle)) (story : String)
    (h : (generateCompleteDebateStory loads prompt title items).1 = .ok (some story)) :
    ∃ ds finals ds2,
      items.map Prod.fst = ds ++ ds2 ∧
      finals.length = ds.length ∧
      (generateCompleteDebateStory loads prompt title items).2.previousSections = finals ∧
      story = "# " ++ title ++ "\n\n" ++
        String.intercalate "\n\n" (List.zipWith renderSection ds finals) := by
  obtain ⟨ds, finals, ds2, hmap, hlen, hcs, hps⟩ :=
    runSections_shape loads prompt items ⟨[], [], [], []⟩
  refine ⟨ds, finals, ds2, hmap, hlen, ?_, ?_⟩
  · rw [driver_state, hps]
    simp
  · rw [driver_some loads prompt title items story h, hcs]
    simp

/-- Witness for C9 at a concrete one-section run with its literal
assembled story. -/
theorem claim_C9_witness :
    ∃ ds finals ds2,
      [(demoSec1, goodOracle)].map Prod.fst = ds ++ ds2 ∧
      finals.length = ds.length ∧
      (generateCompleteDebateStory demoLoads "p" "T" [(demoSec1, goodOracle)]).2.previousSections = finals ∧
      "# T\n\n## S1\n\nFINAL" = "# " ++ "T" ++ "\n\n" ++
        String.intercalate "\n\n" (List.zipWith renderSection ds finals) :=
  claim_C9_assembly demoLoads "p" "T" [(demoSec1, goodOracle)] "# T\n\n## S1\n\nFINAL" rfl

end StoryDebate
